import Mathlib

/-!
Verification of the Seedly (InvestMate) calculation layer.

The definitions below are a shallow embedding of the pure calculation
functions of src/main.go: the compound-growth projector, the time-horizon
allocation selector, the two risk scorers, the shared risk-tier lookup
tables, and the memoizing float parser.  Go float64 values are modelled as
rational numbers, Go int values as integers or naturals, Go maps as
if-chains returning Option, and the sync.Map parse cache as an explicit
association list threaded through calls.
-/

namespace Seedly

/-- Guard constant of calculateCompoundGrowth: the source compares the
monthly rate against the literal 1e-12, modelled here as the exact
rational. -/
def epsRate : ℚ := 1 / 1000000000000

/-- Result record of calculateCompoundGrowth.  The Go function returns a
map with these values (some of them rendered as display strings by the
caller-facing layer); we keep the underlying numbers. -/
structure GrowthProjection where
  fvInitial : ℚ
  fvAnnuity : ℚ
  totalContributed : ℚ
  projectedTotal : ℚ
  projectedEarnings : ℚ
  earningsPercent : ℚ
  deriving Repr, DecidableEq

/-- Embedding of calculateCompoundGrowth (src/main.go lines 709-744).
Note the branch guard is the literal source condition
monthlyRate < 1e-12, with no absolute value: every negative rate also
takes the degenerate branch.  The handler parses years from a string with
ParseInt; all spec claims constrain years to be non-negative, so years is
modelled as a natural number. -/
def calculateCompoundGrowth (initial monthly returnRate : ℚ) (years : ℕ) :
    GrowthProjection :=
  let monthlyRate := returnRate / 100 / 12
  let months := years * 12
  let fvInitial := initial * (1 + monthlyRate) ^ months
  let fvAnnuity :=
    if monthlyRate < epsRate then monthly * (months : ℚ)
    else monthly * (((1 + monthlyRate) ^ months - 1) / monthlyRate)
  let total := fvInitial + fvAnnuity
  let totalContributed := initial + monthly * (months : ℚ)
  let earnings := total - totalContributed
  let earningsPercent := if 0 < total then earnings / total * 100 else 0
  ⟨fvInitial, fvAnnuity, totalContributed, total, earnings, earningsPercent⟩

/-- Brute-force month-by-month simulation from section 8 of the spec: each
month applies (1+r) compounding and then adds the monthly contribution at
the end of the month. -/
def simulateGrowth (initial monthly r : ℚ) : ℕ → ℚ
  | 0 => initial
  | n + 1 => simulateGrowth initial monthly r n * (1 + r) + monthly

/-- Time horizon lookup table (src/main.go lines 132-140), a Go map
modelled as an exact-match chain returning Option. -/
def timeHorizonTable (s : String) : Option ℕ :=
  if s = "1" then some 2
  else if s = "1-3" then some 2
  else if s = "5" then some 5
  else if s = "3-5" then some 5
  else if s = "10" then some 10
  else if s = "20" then some 20
  else if s = "20+" then some 20
  else none

/-- Embedding of parseTimeHorizonFast: table hit returns the table value,
anything else defaults to 10. -/
def parseTimeHorizonFast (s : String) : ℕ :=
  (timeHorizonTable s).getD 10

/-- One row of the allocationByYears table. -/
structure AllocationBand where
  years : ℕ
  stocks : ℚ
  bonds : ℚ
  cash : ℚ
  deriving Repr, DecidableEq

/-- Embedding of the allocationByYears table (src/main.go lines 165-174). -/
def allocationByYears : List AllocationBand :=
  [⟨5, 30 / 100, 50 / 100, 20 / 100⟩,
   ⟨15, 60 / 100, 30 / 100, 10 / 100⟩,
   ⟨999, 80 / 100, 15 / 100, 5 / 100⟩]

/-- Result record of generateInvestmentPlan; only the numeric content of
the returned map is modelled (the Go code formats the percentages into
display strings). -/
structure InvestmentPlan where
  goal : String
  timeHorizon : String
  currentAmount : ℚ
  stocks : ℚ
  bonds : ℚ
  cash : ℚ
  annualContribution : ℚ
  monthlyInvestment : ℚ
  deriving Repr, DecidableEq

/-- Band-selection loop of generateInvestmentPlan: walk the table and take
the first band whose threshold is at least the year count; if no band
matches, the initial 30/50/20 default values survive (the threshold field
of the fallback is irrelevant, only its three fractions are read). -/
def selectAllocation (years : ℕ) : List AllocationBand → AllocationBand
  | [] => ⟨5, 30 / 100, 50 / 100, 20 / 100⟩
  | a :: rest => if years ≤ a.years then a else selectAllocation years rest

/-- Embedding of generateInvestmentPlan (src/main.go lines 747-776): the
source initializes the split to the 30/50/20 default and overrides it with
the first table band whose threshold is at least the year count. -/
def generateInvestmentPlan (goal timeHorizon : String)
    (currentAmount monthlyCapacity : ℚ) : InvestmentPlan :=
  let years := parseTimeHorizonFast timeHorizon
  let band := selectAllocation years allocationByYears
  ⟨goal, timeHorizon, currentAmount, band.stocks, band.bonds, band.cash,
    monthlyCapacity * 12, monthlyCapacity⟩

/-- Embedding of the ageRiskScore array (src/main.go lines 143-147).  The
source declares a Go array of type [120]int but the literal supplies only
80 values (35 times 70, then 15 times 50, then 30 times 30); Go fills the
remaining 40 entries, indices 80 through 119, with the zero value 0. -/
def ageRiskScore : List ℤ :=
  List.replicate 35 70 ++ List.replicate 15 50 ++
    List.replicate 30 30 ++ List.replicate 40 0

/-- Age contribution inside assessRiskProfile: array lookup for age < 120,
default 30 otherwise.  The list has length 120, so the getD default 0 is
never reached in the first branch. -/
def ageComponent (age : ℕ) : ℤ :=
  if age < 120 then ageRiskScore.getD age 0 else 30

/-- Downturn comfort lookup map (src/main.go lines 149-155). -/
def comfortRiskScore (s : String) : Option ℤ :=
  if s = "very_uncomfortable" then some 10
  else if s = "somewhat_uncomfortable" then some 25
  else if s = "neutral" then some 40
  else if s = "comfortable" then some 60
  else if s = "very_comfortable" then some 75
  else none

/-- Experience lookup map (src/main.go lines 157-162). -/
def experienceRiskScore (s : String) : Option ℤ :=
  if s = "none" then some (-20)
  else if s = "minimal" then some (-10)
  else if s = "moderate" then some 0
  else if s = "extensive" then some 15
  else none

/-- Shared risk-tier allocation table riskAllocationCache (src/main.go
lines 45-61), a Go map whose lookup is modelled as Option. -/
def riskAllocationCache (risk : String) : Option (List (String × String)) :=
  if risk = "Conservative" then
    some [("stocks", "30-40%"), ("bonds", "50-60%"), ("cash", "10-20%")]
  else if risk = "Moderate" then
    some [("stocks", "50-60%"), ("bonds", "30-40%"), ("cash", "5-10%")]
  else if risk = "Moderate-to-Aggressive" then
    some [("stocks", "70-80%"), ("bonds", "15-25%"), ("cash", "5%")]
  else none

/-- Shared risk-tier strategy table strategiesCache (src/main.go lines
64-80). -/
def strategiesCache (risk : String) : Option (List String) :=
  if risk = "Conservative" then
    some ["Focus on bonds and dividend-paying stocks",
          "Monthly automated investing",
          "Rebalance annually"]
  else if risk = "Moderate" then
    some ["Mix of growth stocks and stable bonds",
          "Dollar-cost averaging",
          "Review quarterly"]
  else if risk = "Moderate-to-Aggressive" then
    some ["Growth-focused with some international exposure",
          "Automatic reinvestment of dividends",
          "Stay the course during market dips"]
  else none

/-- Embedding of getRiskAllocation: a direct read of the shared map. -/
def getRiskAllocation (risk : String) : Option (List (String × String)) :=
  riskAllocationCache risk

/-- Embedding of getStrategiesForRisk: a direct read of the shared map. -/
def getStrategiesForRisk (risk : String) : Option (List String) :=
  strategiesCache risk

/-- Result record of assessRiskProfile.  The allocation and strategy
fields are map lookups keyed by the computed level and hence Option. -/
structure RiskProfile where
  age : ℕ
  yearsToRetirement : ℤ
  riskScore : ℤ
  riskLevel : String
  allocationSuggestion : Option (List (String × String))
  bestFitStrategies : Option (List String)
  deriving Repr, DecidableEq

/-- Embedding of assessRiskProfile (src/main.go lines 787-822): age
component plus comfort and experience map hits (a missing key contributes
nothing), then the three-tier level rule. -/
def assessRiskProfile (age : ℕ) (yearsToRetirement : ℤ)
    (downturnComfort experience : String) : RiskProfile :=
  let score := ageComponent age + (comfortRiskScore downturnComfort).getD 0 +
    (experienceRiskScore experience).getD 0
  let level :=
    if 60 < score then "Moderate-to-Aggressive"
    else if 40 < score then "Moderate"
    else "Conservative"
  ⟨age, yearsToRetirement, score, level,
    riskAllocationCache level, strategiesCache level⟩

/-- Income stability component of calculateDynamicRiskScore: a Go switch
with no default, so an unrecognized value adds 0. -/
def incomeStabilityScore (s : String) : ℤ :=
  if s = "unstable" then 15
  else if s = "moderate" then 28
  else if s = "stable" then 40
  else 0

/-- Transaction frequency component of calculateDynamicRiskScore. -/
def transactionFrequencyScore (s : String) : ℤ :=
  if s = "low" then 25
  else if s = "medium" then 15
  else if s = "high" then 5
  else 0

/-- Savings consistency component of calculateDynamicRiskScore. -/
def savingsConsistencyScore (s : String) : ℤ :=
  if s = "inconsistent" then 5
  else if s = "moderate" then 15
  else if s = "excellent" then 25
  else 0

/-- Emergency fund component of calculateDynamicRiskScore.  The handler
truncates the months input to a Go int, so the argument is an integer. -/
def emergencyFundScore (months : ℤ) : ℤ :=
  if 12 ≤ months then 20
  else if 6 ≤ months then 15
  else if 3 ≤ months then 10
  else 5

/-- Embedding of calculateDynamicRiskScore (src/main.go lines 869-914):
the additive sum of the four behavioral components. -/
def calculateDynamicRiskScore (incomeStability txFrequency
    savingsConsistency : String) (emergencyMonths : ℤ) : ℤ :=
  incomeStabilityScore incomeStability +
    transactionFrequencyScore txFrequency +
    savingsConsistencyScore savingsConsistency +
    emergencyFundScore emergencyMonths

/-- Embedding of getRiskLevelFromScore (src/main.go lines 917-926). -/
def getRiskLevelFromScore (score : ℤ) : String :=
  if 70 ≤ score then "Aggressive"
  else if 50 ≤ score then "Moderate-to-Aggressive"
  else if 35 ≤ score then "Moderate"
  else "Conservative"

/-- Lookup in the parse cache, modelling sync.Map.Load keyed by the raw
input string. -/
def cacheLookup (s : String) : List (String × ℚ) → Option ℚ
  | [] => none
  | p :: rest => if p.1 = s then some p.2 else cacheLookup s rest

/-- Embedding of parseCachedFloat (src/main.go lines 693-700).  The
underlying strconv.ParseFloat call is abstracted as a parse function
returning Option; the source discards the error component, which in Go
leaves the zero value 0, modelled by getD 0.  The function returns the
parsed value together with the updated cache state. -/
def parseCachedFloat (parse : String → Option ℚ)
    (cache : List (String × ℚ)) (s : String) : ℚ × List (String × ℚ) :=
  match cacheLookup s cache with
  | some v => (v, cache)
  | none => ((parse s).getD 0, (s, (parse s).getD 0) :: cache)

/-- Runs a sequence of parseCachedFloat calls, threading the cache, and
returns the list of returned values. -/
def runParseCalls (parse : String → Option ℚ) :
    List String → List (String × ℚ) → List ℚ
  | [], _ => []
  | s :: rest, cache =>
    (parseCachedFloat parse cache s).1 ::
      runParseCalls parse rest (parseCachedFloat parse cache s).2

/-- The cache only ever holds the value the parser (with its error
discarded) produces for the stored key. -/
def cacheFaithful (parse : String → Option ℚ)
    (cache : List (String × ℚ)) : Prop :=
  ∀ p ∈ cache, p.2 = (parse p.1).getD 0

/-! Field-level unfolding lemmas for the growth projection. -/

theorem calculateCompoundGrowth_total (i m ρ : ℚ) (y : ℕ) :
    (calculateCompoundGrowth i m ρ y).projectedTotal =
      i * (1 + ρ / 100 / 12) ^ (y * 12) +
        (if ρ / 100 / 12 < epsRate then m * ((y * 12 : ℕ) : ℚ)
         else m * (((1 + ρ / 100 / 12) ^ (y * 12) - 1) / (ρ / 100 / 12))) := rfl

theorem calculateCompoundGrowth_fvAnnuity (i m ρ : ℚ) (y : ℕ) :
    (calculateCompoundGrowth i m ρ y).fvAnnuity =
      (if ρ / 100 / 12 < epsRate then m * ((y * 12 : ℕ) : ℚ)
       else m * (((1 + ρ / 100 / 12) ^ (y * 12) - 1) / (ρ / 100 / 12))) := rfl

theorem calculateCompoundGrowth_contributed (i m ρ : ℚ) (y : ℕ) :
    (calculateCompoundGrowth i m ρ y).totalContributed =
      i + m * ((y * 12 : ℕ) : ℚ) := rfl

theorem calculateCompoundGrowth_earnings (i m ρ : ℚ) (y : ℕ) :
    (calculateCompoundGrowth i m ρ y).projectedEarnings =
      (calculateCompoundGrowth i m ρ y).projectedTotal -
        (calculateCompoundGrowth i m ρ y).totalContributed := rfl

theorem calculateCompoundGrowth_percent (i m ρ : ℚ) (y : ℕ) :
    (calculateCompoundGrowth i m ρ y).earningsPercent =
      if 0 < (calculateCompoundGrowth i m ρ y).projectedTotal then
        (calculateCompoundGrowth i m ρ y).projectedEarnings /
          (calculateCompoundGrowth i m ρ y).projectedTotal * 100
      else 0 := rfl

/-! Claims about the risk scorers and lookup tables. -/

/-- C2 is a code bug: the spec says every age from 50 through 119 scores
30 from the age table, but the source array literal supplies only 80
values, so Go zero-fills indices 80 through 119.  Ages 50 through 79 do
score 30, ages 80 through 119 score 0, and ages 120 and above take the
explicit default 30.  The final conjunct shows the full questionnaire at
age 80 (neutral comfort, moderate experience): the spec predicts
30 + 40 + 0 = 70, the code yields 0 + 40 + 0 = 40. -/
theorem claim_C2_age_score_zero_fill :
    ageComponent 50 = 30 ∧ ageComponent 79 = 30 ∧
    ageComponent 80 = 0 ∧ ageComponent 119 = 0 ∧ ageComponent 120 = 30 ∧
    (assessRiskProfile 80 0 "neutral" "moderate").riskScore = 40 := by
  decide

/-- C6: the questionnaire scorer maps its score through the three-tier
rule (score above 60 gives Moderate-to-Aggressive, above 40 gives
Moderate, otherwise Conservative); the concrete scenario age 28 with
comfortable downturn comfort and minimal experience scores
70 + 60 - 10 = 120 and lands in Moderate-to-Aggressive. -/
theorem claim_C6_questionnaire_tier :
    (∀ (age : ℕ) (yr : ℤ) (c e : String),
      (assessRiskProfile age yr c e).riskLevel =
        if 60 < (assessRiskProfile age yr c e).riskScore then
          "Moderate-to-Aggressive"
        else if 40 < (assessRiskProfile age yr c e).riskScore then "Moderate"
        else "Conservative") ∧
    (assessRiskProfile 28 0 "comfortable" "minimal").riskScore = 120 ∧
    (assessRiskProfile 28 0 "comfortable" "minimal").riskLevel =
      "Moderate-to-Aggressive" := by
  refine ⟨fun age yr c e => rfl, by decide, by decide⟩

/-- C7: the shared allocation and strategy tables define exactly the three
tiers Conservative, Moderate and Moderate-to-Aggressive, so the tier
Aggressive (which getRiskLevelFromScore does produce, for example at
score 70) has no entry; the questionnaire scorer never outputs Aggressive
and its own lookups always hit a defined entry. -/
theorem claim_C7_aggressive_missing_entry :
    getRiskAllocation "Aggressive" = none ∧
    getStrategiesForRisk "Aggressive" = none ∧
    (∀ s, (riskAllocationCache s).isSome ↔
      s = "Conservative" ∨ s = "Moderate" ∨ s = "Moderate-to-Aggressive") ∧
    (∀ s, (strategiesCache s).isSome ↔
      s = "Conservative" ∨ s = "Moderate" ∨ s = "Moderate-to-Aggressive") ∧
    getRiskLevelFromScore 70 = "Aggressive" ∧
    (∀ (age : ℕ) (yr : ℤ) (c e : String),
      (assessRiskProfile age yr c e).riskLevel ≠ "Aggressive" ∧
      (assessRiskProfile age yr c e).allocationSuggestion.isSome ∧
      (assessRiskProfile age yr c e).bestFitStrategies.isSome) := by
  refine ⟨by decide, by decide, ?_, ?_, by decide, ?_⟩
  · intro s
    unfold riskAllocationCache
    split_ifs <;> simp_all
  · intro s
    unfold strategiesCache
    split_ifs <;> simp_all
  · intro age yr c e
    dsimp only [assessRiskProfile]
    split_ifs <;> exact ⟨by decide, by decide, by decide⟩

theorem parseTimeHorizonFast_cases (s : String) :
    parseTimeHorizonFast s = 2 ∨ parseTimeHorizonFast s = 5 ∨
      parseTimeHorizonFast s = 10 ∨ parseTimeHorizonFast s = 20 := by
  unfold parseTimeHorizonFast timeHorizonTable
  split_ifs <;> simp

/-- C4: every time-horizon string is normalized through the exact-match
table (with default 10), and the resulting year count picks the first band
whose threshold is at least the count: 30/50/20 up to 5 years, 60/30/10 up
to 15, and 80/15/5 beyond; in particular the string 20+ resolves to 20
years and the 80/15/5 band. -/
theorem claim_C4_horizon_allocation :
    (parseTimeHorizonFast "1" = 2 ∧ parseTimeHorizonFast "1-3" = 2 ∧
     parseTimeHorizonFast "5" = 5 ∧ parseTimeHorizonFast "3-5" = 5 ∧
     parseTimeHorizonFast "10" = 10 ∧ parseTimeHorizonFast "20" = 20 ∧
     parseTimeHorizonFast "20+" = 20) ∧
    (∀ s, timeHorizonTable s = none → parseTimeHorizonFast s = 10) ∧
    (∀ (g s : String) (cur mon : ℚ),
      ((generateInvestmentPlan g s cur mon).stocks,
       (generateInvestmentPlan g s cur mon).bonds,
       (generateInvestmentPlan g s cur mon).cash) =
        if parseTimeHorizonFast s ≤ 5 then
          ((30 : ℚ) / 100, (50 : ℚ) / 100, (20 : ℚ) / 100)
        else if parseTimeHorizonFast s ≤ 15 then
          ((60 : ℚ) / 100, (30 : ℚ) / 100, (10 : ℚ) / 100)
        else ((80 : ℚ) / 100, (15 : ℚ) / 100, (5 : ℚ) / 100)) ∧
    ((generateInvestmentPlan "retirement" "20+" 0 0).stocks = 80 / 100 ∧
     (generateInvestmentPlan "retirement" "20+" 0 0).bonds = 15 / 100 ∧
     (generateInvestmentPlan "retirement" "20+" 0 0).cash = 5 / 100) := by
  have h20 : parseTimeHorizonFast "20+" = 20 := by decide
  refine ⟨by decide, ?_, ?_, ?_⟩
  · intro s h
    unfold parseTimeHorizonFast
    rw [h]
    rfl
  · intro g s cur mon
    rcases parseTimeHorizonFast_cases s with h | h | h | h <;>
      simp [generateInvestmentPlan, selectAllocation, allocationByYears, h]
  · dsimp only [generateInvestmentPlan]
    rw [h20]
    norm_num [selectAllocation, allocationByYears]

/-- Witness for C4: the defaulting branch applied to a concrete
unrecognized horizon string. -/
theorem claim_C4_witness :
    timeHorizonTable "7" = none ∧ parseTimeHorizonFast "7" = 10 :=
  ⟨by decide, claim_C4_horizon_allocation.2.1 "7" (by decide)⟩

theorem emergencyFundScore_bounds (em : ℤ) :
    5 ≤ emergencyFundScore em ∧ emergencyFundScore em ≤ 20 := by
  unfold emergencyFundScore
  split_ifs <;> omega

/-- C5: the behavioral scorer is the additive sum of its four components
with the documented values, the total lies between 30 and 110 for
recognized enum inputs, and getRiskLevelFromScore applies the four-tier
rule (at least 70 Aggressive, at least 50 Moderate-to-Aggressive, at least
35 Moderate, otherwise Conservative). -/
theorem claim_C5_behavioral_score :
    (∀ em : ℤ,
      (12 ≤ em → emergencyFundScore em = 20) ∧
      (6 ≤ em → em < 12 → emergencyFundScore em = 15) ∧
      (3 ≤ em → em < 6 → emergencyFundScore em = 10) ∧
      (em < 3 → emergencyFundScore em = 5)) ∧
    (incomeStabilityScore "unstable" = 15 ∧
     incomeStabilityScore "moderate" = 28 ∧
     incomeStabilityScore "stable" = 40 ∧
     transactionFrequencyScore "high" = 5 ∧
     transactionFrequencyScore "medium" = 15 ∧
     transactionFrequencyScore "low" = 25 ∧
     savingsConsistencyScore "inconsistent" = 5 ∧
     savingsConsistencyScore "moderate" = 15 ∧
     savingsConsistencyScore "excellent" = 25) ∧
    (∀ (inc tx sav : String) (em : ℤ),
      inc = "unstable" ∨ inc = "moderate" ∨ inc = "stable" →
      tx = "high" ∨ tx = "medium" ∨ tx = "low" →
      sav = "inconsistent" ∨ sav = "moderate" ∨ sav = "excellent" →
      calculateDynamicRiskScore inc tx sav em =
        incomeStabilityScore inc + transactionFrequencyScore tx +
          savingsConsistencyScore sav + emergencyFundScore em ∧
      30 ≤ calculateDynamicRiskScore inc tx sav em ∧
      calculateDynamicRiskScore inc tx sav em ≤ 110 ∧
      getRiskLevelFromScore (calculateDynamicRiskScore inc tx sav em) =
        (if 70 ≤ calculateDynamicRiskScore inc tx sav em then "Aggressive"
         else if 50 ≤ calculateDynamicRiskScore inc tx sav em then
           "Moderate-to-Aggressive"
         else if 35 ≤ calculateDynamicRiskScore inc tx sav em then "Moderate"
         else "Conservative")) := by
  refine ⟨?_, by decide, ?_⟩
  · intro em
    unfold emergencyFundScore
    split_ifs <;> omega
  · intro inc tx sav em hinc htx hsav
    have hef := emergencyFundScore_bounds em
    refine ⟨rfl, ?_, ?_, rfl⟩ <;>
      · rcases hinc with rfl | rfl | rfl <;> rcases htx with rfl | rfl | rfl <;>
          rcases hsav with rfl | rfl | rfl <;>
          simp only [calculateDynamicRiskScore, incomeStabilityScore,
            transactionFrequencyScore, savingsConsistencyScore,
            String.reduceEq, if_true, if_false, reduceIte] <;>
          omega

/-- Witness for C5: the best-behaved concrete profile scores 110 and the
emergency fund component hits the 12-month cap. -/
theorem claim_C5_witness :
    emergencyFundScore 12 = 20 ∧
    30 ≤ calculateDynamicRiskScore "stable" "low" "excellent" 12 ∧
    calculateDynamicRiskScore "stable" "low" "excellent" 12 ≤ 110 :=
  ⟨(claim_C5_behavioral_score.1 12).1 (by decide),
   (claim_C5_behavioral_score.2.2 "stable" "low" "excellent" 12
      (Or.inr (Or.inr rfl)) (Or.inr (Or.inr rfl)) (Or.inr (Or.inr rfl))).2.1,
   (claim_C5_behavioral_score.2.2 "stable" "low" "excellent" 12
      (Or.inr (Or.inr rfl)) (Or.inr (Or.inr rfl)) (Or.inr (Or.inr rfl))).2.2.1⟩

/-! Lemmas about the memoizing float parser. -/

theorem cacheLookup_faithful {parse : String → Option ℚ}
    {cache : List (String × ℚ)} {s : String} {v : ℚ}
    (h : cacheFaithful parse cache) (hl : cacheLookup s cache = some v) :
    v = (parse s).getD 0 := by
  induction cache with
  | nil => exact absurd hl (by simp [cacheLookup])
  | cons p rest ih =>
    rw [cacheLookup] at hl
    by_cases hp : p.1 = s
    · rw [if_pos hp] at hl
      obtain rfl : p.2 = v := by injection hl
      rw [h p (List.mem_cons_self p rest), hp]
    · rw [if_neg hp] at hl
      exact ih (fun q hq => h q (List.mem_cons_of_mem p hq)) hl

theorem parseCachedFloat_fst {parse : String → Option ℚ}
    {cache : List (String × ℚ)} {s : String}
    (h : cacheFaithful parse cache) :
    (parseCachedFloat parse cache s).1 = (parse s).getD 0 := by
  unfold parseCachedFloat
  cases hl : cacheLookup s cache with
  | none => rfl
  | some v => exact cacheLookup_faithful h hl

theorem parseCachedFloat_faithful {parse : String → Option ℚ}
    {cache : List (String × ℚ)} {s : String}
    (h : cacheFaithful parse cache) :
    cacheFaithful parse (parseCachedFloat parse cache s).2 := by
  unfold parseCachedFloat
  cases hl : cacheLookup s cache with
  | none =>
    intro p hp
    rcases List.mem_cons.mp hp with rfl | hmem
    · rfl
    · exact h p hmem
  | some v => exact h

theorem runParseCalls_unparsable {parse : String → Option ℚ} {s : String}
    (hs : parse s = none) :
    ∀ (queries : List String) (cache : List (String × ℚ)),
      cacheFaithful parse cache →
      ∀ q ∈ queries.zip (runParseCalls parse queries cache),
        q.1 = s → q.2 = 0 := by
  intro queries
  induction queries with
  | nil => intro cache _ q hq; exact absurd hq (by simp)
  | cons t rest ih =>
    intro cache hc q hq hqs
    rw [runParseCalls, List.zip_cons_cons] at hq
    rcases List.mem_cons.mp hq with rfl | hmem
    · have : (parseCachedFloat parse cache t).1 = (parse t).getD 0 :=
        parseCachedFloat_fst hc
      dsimp only at hqs ⊢
      rw [this, hqs, hs]
      rfl
    · exact ih (parseCachedFloat parse cache t).2
        (parseCachedFloat_faithful hc) q hmem hqs

/-- C10: when the parser rejects the input string, parseCachedFloat
discards the failure and returns 0, the cache afterwards holds 0 for that
string, and in any sequence of calls starting from a faithful cache every
call with that string returns 0. -/
theorem claim_C10_unparsable_yields_zero :
    ∀ (parse : String → Option ℚ) (cache : List (String × ℚ)) (s : String)
      (queries : List String),
      parse s = none → cacheFaithful parse cache →
      (parseCachedFloat parse cache s).1 = 0 ∧
      cacheFaithful parse (parseCachedFloat parse cache s).2 ∧
      (∀ q ∈ queries.zip (runParseCalls parse queries cache),
        q.1 = s → q.2 = 0) := by
  intro parse cache s queries hs hc
  refine ⟨?_, parseCachedFloat_faithful hc, runParseCalls_unparsable hs queries cache hc⟩
  rw [parseCachedFloat_fst hc, hs]
  rfl

/-- Witness for C10: a concrete parser that only accepts the string 7,
called twice on the unparsable string abc starting from an empty cache;
both calls return 0. -/
theorem claim_C10_witness :
    (fun t => if t = "7" then some (7 : ℚ) else none) "abc" = none ∧
    (parseCachedFloat (fun t => if t = "7" then some (7 : ℚ) else none)
      [] "abc").1 = 0 ∧
    (∀ q ∈ (["abc", "abc"].zip (runParseCalls
        (fun t => if t = "7" then some (7 : ℚ) else none) ["abc", "abc"] [])),
      q.1 = "abc" → q.2 = 0) :=
  ⟨by decide,
   (claim_C10_unparsable_yields_zero _ [] "abc" ["abc", "abc"] (by decide)
      (by intro p hp; exact absurd hp (List.not_mem_nil p))).1,
   (claim_C10_unparsable_yields_zero _ [] "abc" ["abc", "abc"] (by decide)
      (by intro p hp; exact absurd hp (List.not_mem_nil p))).2.2⟩

/-! Claims about the growth projector. -/

/-- C3 is a code bug: the source guard reads monthlyRate < 1e-12 with no
absolute value, so every negative rate takes the degenerate
monthly-times-months branch instead of the general annuity formula the
spec (and the comment in the source, which speaks of the zero-rate case)
prescribe.  At annual return -12 percent, monthly 100 and one year the
code produces the degenerate 1200 while the general formula gives a
different value (about 1136.15). -/
theorem claim_C3_negative_rate_degenerate :
    (calculateCompoundGrowth 0 100 (-12) 1).fvAnnuity = 1200 ∧
    100 * (((1 + (-12 : ℚ) / 100 / 12) ^ (1 * 12) - 1) /
      ((-12 : ℚ) / 100 / 12)) ≠ 1200 := by
  constructor
  · rw [calculateCompoundGrowth_fvAnnuity]
    norm_num [epsRate]
  · norm_num

/-- Counterexample to C8 as stated over all reachable inputs: with a
negative initial amount (the parser accepts negative numerals), total
contributions are negative, and the earnings share exceeds 100 while the
projected total is positive.  Inputs: initial -100, monthly 7.5, annual
return -60 percent, one year. -/
theorem claim_C8_counterexample :
    0 < (calculateCompoundGrowth (-100) (15 / 2) (-60) 1).projectedTotal ∧
    100 < (calculateCompoundGrowth (-100) (15 / 2) (-60) 1).earningsPercent := by
  have hpos : 0 < (calculateCompoundGrowth (-100) (15 / 2) (-60) 1).projectedTotal := by
    rw [calculateCompoundGrowth_total]
    norm_num [epsRate]
  refine ⟨hpos, ?_⟩
  rw [calculateCompoundGrowth_percent, if_pos hpos, calculateCompoundGrowth_earnings,
    calculateCompoundGrowth_contributed, calculateCompoundGrowth_total]
  norm_num [epsRate]

/-- C8 amended: restricted to the data-model domain (initial and monthly
contributions non-negative), the projection satisfies
total = contributed + earnings exactly, the earnings share is 0 when the
total is non-positive, and otherwise equals earnings over total times 100
and is at most 100. -/
theorem claim_C8_amended_invariants :
    ∀ (initial monthly returnRate : ℚ) (years : ℕ),
      0 ≤ initial → 0 ≤ monthly →
      (calculateCompoundGrowth initial monthly returnRate years).projectedTotal =
        (calculateCompoundGrowth initial monthly returnRate years).totalContributed +
          (calculateCompoundGrowth initial monthly returnRate years).projectedEarnings ∧
      ((calculateCompoundGrowth initial monthly returnRate years).projectedTotal ≤ 0 →
        (calculateCompoundGrowth initial monthly returnRate years).earningsPercent = 0) ∧
      (0 < (calculateCompoundGrowth initial monthly returnRate years).projectedTotal →
        (calculateCompoundGrowth initial monthly returnRate years).earningsPercent =
          (calculateCompoundGrowth initial monthly returnRate years).projectedEarnings /
            (calculateCompoundGrowth initial monthly returnRate years).projectedTotal *
              100 ∧
        (calculateCompoundGrowth initial monthly returnRate years).earningsPercent ≤
          100) := by
  intro i m ρ y hi hm
  refine ⟨by rw [calculateCompoundGrowth_earnings]; ring, ?_, ?_⟩
  · intro h
    rw [calculateCompoundGrowth_percent, if_neg (not_lt.mpr h)]
  · intro h
    rw [calculateCompoundGrowth_percent, if_pos h]
    refine ⟨rfl, ?_⟩
    have hC : 0 ≤ (calculateCompoundGrowth i m ρ y).totalContributed := by
      rw [calculateCompoundGrowth_contributed]
      exact add_nonneg hi (mul_nonneg hm (Nat.cast_nonneg _))
    have hE : (calculateCompoundGrowth i m ρ y).projectedEarnings ≤
        (calculateCompoundGrowth i m ρ y).projectedTotal := by
      rw [calculateCompoundGrowth_earnings]
      linarith
    have hdiv := (div_le_one h).mpr hE
    linarith

/-- Witness for the amended C8 at the concrete spec scenario inputs. -/
theorem claim_C8_witness :
    (0 : ℚ) ≤ 5000 ∧ (0 : ℚ) ≤ 500 ∧
    (calculateCompoundGrowth 5000 500 7 20).projectedTotal =
      (calculateCompoundGrowth 5000 500 7 20).totalContributed +
        (calculateCompoundGrowth 5000 500 7 20).projectedEarnings :=
  ⟨by norm_num, by norm_num,
   (claim_C8_amended_invariants 5000 500 7 20 (by norm_num) (by norm_num)).1⟩

/-! Geometric-sum helper lemmas for the monotonicity and equivalence
claims. -/

theorem geomSum_nonneg (r : ℚ) (hr : 0 ≤ r) (n : ℕ) :
    0 ≤ ∑ k ∈ Finset.range n, (1 + r) ^ k :=
  Finset.sum_nonneg fun k _ => pow_nonneg (by linarith) k

theorem le_geomSum (r : ℚ) (hr : 0 ≤ r) (n : ℕ) :
    (n : ℚ) ≤ ∑ k ∈ Finset.range n, (1 + r) ^ k := by
  calc (n : ℚ) = ∑ _k ∈ Finset.range n, (1 : ℚ) := by simp
    _ ≤ ∑ k ∈ Finset.range n, (1 + r) ^ k :=
        Finset.sum_le_sum fun k _ => one_le_pow₀ (by linarith)

theorem geomSum_mono {r₁ r₂ : ℚ} (h0 : 0 ≤ r₁) (hr : r₁ ≤ r₂) {n₁ n₂ : ℕ}
    (hn : n₁ ≤ n₂) :
    ∑ k ∈ Finset.range n₁, (1 + r₁) ^ k ≤
      ∑ k ∈ Finset.range n₂, (1 + r₂) ^ k := by
  calc ∑ k ∈ Finset.range n₁, (1 + r₁) ^ k
      ≤ ∑ k ∈ Finset.range n₁, (1 + r₂) ^ k :=
        Finset.sum_le_sum fun k _ => pow_le_pow_left₀ (by linarith) (by linarith) k
    _ ≤ ∑ k ∈ Finset.range n₂, (1 + r₂) ^ k :=
        Finset.sum_le_sum_of_subset_of_nonneg (Finset.range_subset.mpr hn)
          fun k _ _ => pow_nonneg (by linarith) k

theorem annuity_if_eq_geomSum (m r : ℚ) (n : ℕ) :
    (if r < epsRate then m * (n : ℚ) else m * (((1 + r) ^ n - 1) / r)) =
      (if r < epsRate then m * (n : ℚ)
       else m * ∑ k ∈ Finset.range n, (1 + r) ^ k) := by
  by_cases hc : r < epsRate
  · rw [if_pos hc, if_pos hc]
  · rw [if_neg hc, if_neg hc]
    have hrpos : 0 < r := lt_of_lt_of_le (by norm_num [epsRate]) (not_lt.mp hc)
    have hne : (1 + r) ≠ 1 := by
      intro hh
      have : r = 0 := by linarith
      exact absurd this (ne_of_gt hrpos)
    have h1 : (1 : ℚ) + r - 1 = r := by ring
    rw [geom_sum_eq hne n, h1]

theorem annuity_mono {m₁ m₂ r₁ r₂ : ℚ} {n₁ n₂ : ℕ}
    (hm0 : 0 ≤ m₁) (hm : m₁ ≤ m₂) (h0 : 0 ≤ r₁) (hr : r₁ ≤ r₂)
    (hn : n₁ ≤ n₂) :
    (if r₁ < epsRate then m₁ * (n₁ : ℚ) else m₁ * (((1 + r₁) ^ n₁ - 1) / r₁)) ≤
      (if r₂ < epsRate then m₂ * (n₂ : ℚ)
       else m₂ * (((1 + r₂) ^ n₂ - 1) / r₂)) := by
  rw [annuity_if_eq_geomSum m₁ r₁ n₁, annuity_if_eq_geomSum m₂ r₂ n₂]
  have h02 : 0 ≤ r₂ := le_trans h0 hr
  have hm2 : 0 ≤ m₂ := le_trans hm0 hm
  by_cases h1 : r₁ < epsRate <;> by_cases h2 : r₂ < epsRate
  · rw [if_pos h1, if_pos h2]
    exact mul_le_mul hm (Nat.cast_le.mpr hn) (Nat.cast_nonneg _) hm2
  · rw [if_pos h1, if_neg h2]
    calc m₁ * (n₁ : ℚ) ≤ m₂ * (n₂ : ℚ) :=
        mul_le_mul hm (Nat.cast_le.mpr hn) (Nat.cast_nonneg _) hm2
      _ ≤ m₂ * ∑ k ∈ Finset.range n₂, (1 + r₂) ^ k :=
        mul_le_mul_of_nonneg_left (le_geomSum r₂ h02 n₂) hm2
  · exact absurd (lt_of_le_of_lt hr h2) h1
  · rw [if_neg h1, if_neg h2]
    exact mul_le_mul hm (geomSum_mono h0 hr hn)
      (le_trans (Nat.cast_nonneg n₁) (le_geomSum r₁ h0 n₁)) hm2

/-- C9: the projected total is monotone in all four inputs jointly
(initial amount, monthly contribution, non-negative annual return, and
years); this implies the claim, which increases any single one of them
while holding the rest fixed. -/
theorem claim_C9_projected_total_monotone :
    ∀ (i₁ i₂ m₁ m₂ ρ₁ ρ₂ : ℚ) (y₁ y₂ : ℕ),
      0 ≤ i₁ → i₁ ≤ i₂ → 0 ≤ m₁ → m₁ ≤ m₂ → 0 ≤ ρ₁ → ρ₁ ≤ ρ₂ → y₁ ≤ y₂ →
      (calculateCompoundGrowth i₁ m₁ ρ₁ y₁).projectedTotal ≤
        (calculateCompoundGrowth i₂ m₂ ρ₂ y₂).projectedTotal := by
  intro i₁ i₂ m₁ m₂ ρ₁ ρ₂ y₁ y₂ hi0 hi hm0 hm hρ0 hρ hy
  rw [calculateCompoundGrowth_total, calculateCompoundGrowth_total]
  have hr0 : 0 ≤ ρ₁ / 100 / 12 := by positivity
  have hr : ρ₁ / 100 / 12 ≤ ρ₂ / 100 / 12 := by linarith
  have hn : y₁ * 12 ≤ y₂ * 12 := by omega
  have hlump : i₁ * (1 + ρ₁ / 100 / 12) ^ (y₁ * 12) ≤
      i₂ * (1 + ρ₂ / 100 / 12) ^ (y₂ * 12) := by
    have h1 : (1 + ρ₁ / 100 / 12) ^ (y₁ * 12) ≤
        (1 + ρ₂ / 100 / 12) ^ (y₁ * 12) :=
      pow_le_pow_left₀ (by linarith) (by linarith) _
    have h2 : (1 + ρ₂ / 100 / 12) ^ (y₁ * 12) ≤
        (1 + ρ₂ / 100 / 12) ^ (y₂ * 12) :=
      pow_le_pow_right₀ (by linarith) hn
    exact mul_le_mul hi (le_trans h1 h2) (pow_nonneg (by linarith) _)
      (le_trans hi0 hi)
  exact add_le_add hlump (annuity_mono hm0 hm hr0 hr hn)

/-- Witness for C9 at concrete increasing inputs. -/
theorem claim_C9_witness :
    (0 : ℚ) ≤ 1000 ∧ (0 : ℚ) ≤ 5 ∧
    (calculateCompoundGrowth 1000 100 5 10).projectedTotal ≤
      (calculateCompoundGrowth 2000 200 7 20).projectedTotal :=
  ⟨by norm_num, by norm_num,
   claim_C9_projected_total_monotone 1000 2000 100 200 5 7 10 20
     (by norm_num) (by norm_num) (by norm_num) (by norm_num) (by norm_num)
     (by norm_num) (by norm_num)⟩

/-! Lemmas for the closed-form versus simulation equivalence. -/

theorem simulateGrowth_closed (i m r : ℚ) : ∀ n : ℕ,
    simulateGrowth i m r n =
      i * (1 + r) ^ n + m * ∑ k ∈ Finset.range n, (1 + r) ^ k
  | 0 => by simp [simulateGrowth]
  | n + 1 => by
    rw [simulateGrowth, simulateGrowth_closed i m r n, geom_sum_succ]
    ring

theorem one_sub_mul_pow_le (r : ℚ) (hr : 0 ≤ r) :
    ∀ n : ℕ, (1 - (n : ℚ) * r) * (1 + r) ^ n ≤ 1
  | 0 => by norm_num
  | n + 1 => by
    have ih := one_sub_mul_pow_le r hr n
    have hp : (0 : ℚ) ≤ (1 + r) ^ n := pow_nonneg (by linarith) n
    have hsq : (0 : ℚ) ≤ ((n : ℚ) + 1) * r ^ 2 :=
      mul_nonneg (by positivity) (sq_nonneg r)
    have key : (1 - ((n : ℚ) + 1) * r) * (1 + r) ≤ 1 - (n : ℚ) * r := by
      nlinarith
    calc (1 - ((n + 1 : ℕ) : ℚ) * r) * (1 + r) ^ (n + 1)
        = ((1 - ((n : ℚ) + 1) * r) * (1 + r)) * (1 + r) ^ n := by
          push_cast
          ring
      _ ≤ (1 - (n : ℚ) * r) * (1 + r) ^ n := mul_le_mul_of_nonneg_right key hp
      _ ≤ 1 := ih

theorem pow_le_two_of_mul_le_half (r : ℚ) (n : ℕ) (hr : 0 ≤ r)
    (h : (n : ℚ) * r ≤ 1 / 2) : (1 + r) ^ n ≤ 2 := by
  have hb := one_sub_mul_pow_le r hr n
  have hp : (0 : ℚ) ≤ (1 + r) ^ n := pow_nonneg (by linarith) n
  have h2 : (1 / 2 : ℚ) * (1 + r) ^ n ≤ (1 - (n : ℚ) * r) * (1 + r) ^ n :=
    mul_le_mul_of_nonneg_right (by linarith) hp
  linarith

theorem pow_sub_one_le (r : ℚ) (hr : 0 ≤ r) {n k : ℕ} (hk : k ≤ n) :
    (1 + r) ^ k - 1 ≤ r * (n : ℚ) * (1 + r) ^ n := by
  have h1 : (1 : ℚ) ≤ 1 + r := by linarith
  have hgs := geom_sum_mul (1 + r) k
  have hb : ∑ j ∈ Finset.range k, (1 + r) ^ j ≤ (k : ℚ) * (1 + r) ^ n := by
    calc ∑ j ∈ Finset.range k, (1 + r) ^ j
        ≤ ∑ _j ∈ Finset.range k, (1 + r) ^ n :=
          Finset.sum_le_sum fun j hj => pow_le_pow_right₀ h1
            (le_trans (Nat.le_of_lt (Finset.mem_range.mp hj)) hk)
      _ = (k : ℚ) * (1 + r) ^ n := by
          rw [Finset.sum_const, Finset.card_range, nsmul_eq_mul]
  have hkn : (k : ℚ) ≤ (n : ℚ) := Nat.cast_le.mpr hk
  have hp : (0 : ℚ) ≤ (1 + r) ^ n := pow_nonneg (by linarith) n
  have heq : (1 + r) ^ k - 1 = (∑ j ∈ Finset.range k, (1 + r) ^ j) * r := by
    rw [← hgs]
    ring
  rw [heq]
  calc (∑ j ∈ Finset.range k, (1 + r) ^ j) * r
      ≤ ((k : ℚ) * (1 + r) ^ n) * r := mul_le_mul_of_nonneg_right hb hr
    _ ≤ ((n : ℚ) * (1 + r) ^ n) * r :=
        mul_le_mul_of_nonneg_right (mul_le_mul_of_nonneg_right hkn hp) hr
    _ = r * (n : ℚ) * (1 + r) ^ n := by ring

theorem geomSum_sub_card_le (r : ℚ) (hr : 0 ≤ r) (n : ℕ) :
    (∑ k ∈ Finset.range n, (1 + r) ^ k) - (n : ℚ) ≤
      r * (n : ℚ) ^ 2 * (1 + r) ^ n := by
  have hsplit : (∑ k ∈ Finset.range n, (1 + r) ^ k) - (n : ℚ) =
      ∑ k ∈ Finset.range n, ((1 + r) ^ k - 1) := by
    rw [Finset.sum_sub_distrib]
    simp
  rw [hsplit]
  calc ∑ k ∈ Finset.range n, ((1 + r) ^ k - 1)
      ≤ ∑ _k ∈ Finset.range n, (r * (n : ℚ) * (1 + r) ^ n) :=
        Finset.sum_le_sum fun k hk =>
          pow_sub_one_le r hr (Nat.le_of_lt (Finset.mem_range.mp hk))
    _ = (n : ℚ) * (r * (n : ℚ) * (1 + r) ^ n) := by
        rw [Finset.sum_const, Finset.card_range, nsmul_eq_mul]
    _ = r * (n : ℚ) ^ 2 * (1 + r) ^ n := by ring

/-- C1: over the spec ranges (non-negative initial and monthly, annual
return between 0 and 20 percent, at most 50 years) the closed-form
projected total agrees with the brute-force month-by-month simulation
within 1e-6 relative tolerance.  Above the 1e-12 guard the two are exactly
equal (the geometric series sums exactly); below it the degenerate branch
differs from the simulation by less than 7.2e-7 of the simulated value. -/
theorem claim_C1_closed_form_matches_simulation :
    ∀ (initial monthly returnRate : ℚ) (years : ℕ),
      0 ≤ initial → 0 ≤ monthly → 0 ≤ returnRate → returnRate ≤ 20 →
      years ≤ 50 →
      |(calculateCompoundGrowth initial monthly returnRate years).projectedTotal -
          simulateGrowth initial monthly (returnRate / 100 / 12) (years * 12)| ≤
        simulateGrowth initial monthly (returnRate / 100 / 12) (years * 12) *
          (1 / 1000000) := by
  intro i m ρ y hi hm hρ0 hρ20 hy
  have hr0 : 0 ≤ ρ / 100 / 12 := by positivity
  rw [calculateCompoundGrowth_total, simulateGrowth_closed]
  set r := ρ / 100 / 12 with hrdef
  set n := y * 12 with hndef
  have hp : (0 : ℚ) ≤ (1 + r) ^ n := pow_nonneg (by linarith) n
  have hS0 : 0 ≤ ∑ k ∈ Finset.range n, (1 + r) ^ k := geomSum_nonneg r hr0 n
  have hSn : (n : ℚ) ≤ ∑ k ∈ Finset.range n, (1 + r) ^ k := le_geomSum r hr0 n
  by_cases hc : r < epsRate
  case pos =>
    rw [if_pos hc]
    have hmn : m * (n : ℚ) ≤ m * ∑ k ∈ Finset.range n, (1 + r) ^ k :=
      mul_le_mul_of_nonneg_left hSn hm
    have habs : |i * (1 + r) ^ n + m * (n : ℚ) -
        (i * (1 + r) ^ n + m * ∑ k ∈ Finset.range n, (1 + r) ^ k)| =
        m * ((∑ k ∈ Finset.range n, (1 + r) ^ k) - (n : ℚ)) := by
      rw [abs_of_nonpos (by linarith)]
      ring
    rw [habs]
    rcases Nat.eq_zero_or_pos n with h0 | hpos1
    · rw [h0]
      simp only [Finset.range_zero, Finset.sum_empty, Nat.cast_zero, sub_zero,
        mul_zero, pow_zero, mul_one]
      have : (0 : ℚ) ≤ (i + m * 0) * (1 / 1000000) := by positivity
      linarith
    · have hn1 : (1 : ℚ) ≤ (n : ℚ) := by exact_mod_cast hpos1
      have hn600 : (n : ℚ) ≤ 600 := by
        have hle : n ≤ 600 := by omega
        exact_mod_cast hle
      have hceps : r < 1 / 1000000000000 := by
        simpa [epsRate] using hc
      have hnr : (n : ℚ) * r ≤ 1 / 2 := by nlinarith
      have h2 : (1 + r) ^ n ≤ 2 := pow_le_two_of_mul_le_half r n hr0 hnr
      have hgap := geomSum_sub_card_le r hr0 n
      have hn2 : (n : ℚ) ^ 2 ≤ 360000 := by nlinarith
      have hb1 : r * (n : ℚ) ^ 2 ≤ (1 / 1000000000000) * 360000 :=
        mul_le_mul (le_of_lt hceps) hn2 (sq_nonneg _) (by norm_num)
      have hb : r * (n : ℚ) ^ 2 * (1 + r) ^ n ≤ 72 / 100000000 := by
        calc r * (n : ℚ) ^ 2 * (1 + r) ^ n
            ≤ ((1 / 1000000000000) * 360000) * 2 :=
              mul_le_mul hb1 h2 hp (by norm_num)
          _ = 72 / 100000000 := by norm_num
      calc m * ((∑ k ∈ Finset.range n, (1 + r) ^ k) - (n : ℚ))
          ≤ m * (72 / 100000000) :=
            mul_le_mul_of_nonneg_left (le_trans hgap hb) hm
        _ ≤ m * ((n : ℚ) * (1 / 1000000)) := by
            have h16 : (72 : ℚ) / 100000000 ≤ (n : ℚ) * (1 / 1000000) := by
              linarith
            exact mul_le_mul_of_nonneg_left h16 hm
        _ = (m * (n : ℚ)) * (1 / 1000000) := by ring
        _ ≤ (i * (1 + r) ^ n + m * ∑ k ∈ Finset.range n, (1 + r) ^ k) *
              (1 / 1000000) := by
            have hip : 0 ≤ i * (1 + r) ^ n := mul_nonneg hi hp
            have : m * (n : ℚ) ≤
                i * (1 + r) ^ n + m * ∑ k ∈ Finset.range n, (1 + r) ^ k := by
              linarith
            exact mul_le_mul_of_nonneg_right this (by norm_num)
  case neg =>
    rw [if_neg hc]
    have hrpos : 0 < r := lt_of_lt_of_le (by norm_num [epsRate]) (not_lt.mp hc)
    have hne : (1 + r) ≠ 1 := by
      intro hh
      have : r = 0 := by linarith
      exact absurd this (ne_of_gt hrpos)
    have hgeq : m * (((1 + r) ^ n - 1) / r) =
        m * ∑ k ∈ Finset.range n, (1 + r) ^ k := by
      have h1 : (1 : ℚ) + r - 1 = r := by ring
      rw [geom_sum_eq hne n, h1]
    rw [hgeq, sub_self, abs_zero]
    have hSm : 0 ≤ m * ∑ k ∈ Finset.range n, (1 + r) ^ k := mul_nonneg hm hS0
    have hip : 0 ≤ i * (1 + r) ^ n := mul_nonneg hi hp
    nlinarith

/-- Witness for C1 at the concrete spec scenario inputs (initial 5000,
monthly 500, annual return 7 percent, 20 years). -/
theorem claim_C1_witness :
    (0 : ℚ) ≤ 5000 ∧ (0 : ℚ) ≤ 7 ∧ (7 : ℚ) ≤ 20 ∧ 20 ≤ 50 ∧
    |(calculateCompoundGrowth 5000 500 7 20).projectedTotal -
        simulateGrowth 5000 500 (7 / 100 / 12) (20 * 12)| ≤
      simulateGrowth 5000 500 (7 / 100 / 12) (20 * 12) * (1 / 1000000) :=
  ⟨by norm_num, by norm_num, by norm_num, by norm_num,
   claim_C1_closed_form_matches_simulation 5000 500 7 20 (by norm_num)
     (by norm_num) (by norm_num) (by norm_num) (by norm_num)⟩

end Seedly
